import Mathlib

/-!
Verification of the Trading Hub dashboard page
(`frontend/pages/orchestration/trading/app.py`) of the hm-dashboard
repository.

The page's data-facing logic is embedded shallowly:

* Python values that flow through the page (backend responses, records,
  prices) are modelled by the inductive type `PyVal` (`None`, booleans,
  integers, strings, lists, and insertion-ordered dicts as association
  lists).  Numeric payloads are modelled as integers: none of the page's
  normalization logic inspects numbers, it only moves them around.
* A backend call that may raise is modelled as a value of type
  `Except String PyVal`: `.error e` is a raised exception whose rendered
  text is `e`, `.ok v` a returned value.
* Each `st.error` / `st.warning` / `st.success` / `st.info` call that a
  function performs is collected in an output list of `StMsg`, so that
  "silently" versus "with an error message" is observable.
* Python operations that can themselves raise (`obj[key]`, `.items()`,
  iteration, inserting an unhashable key into a dict) are modelled in
  `Except Unit`, and the surrounding `try/except` blocks of the source
  catch those errors exactly where the source does.
-/

/-- A Python value as it appears in this page's data flow: `None`, `bool`,
`int`, `str`, `list`, and `dict` (an insertion-ordered association list,
as backend JSON dicts are). -/
inductive PyVal : Type where
  | vNone : PyVal
  | vBool (b : Bool) : PyVal
  | vInt (n : Int) : PyVal
  | vStr (s : String) : PyVal
  | vList (xs : List PyVal) : PyVal
  | vDict (d : List (PyVal × PyVal)) : PyVal

mutual
/-- Structural (Python `==`) equality on `PyVal`. -/
def PyVal.beq : PyVal → PyVal → Bool
  | .vNone, .vNone => true
  | .vBool a, .vBool b => a == b
  | .vInt a, .vInt b => a == b
  | .vStr a, .vStr b => a == b
  | .vList xs, .vList ys => PyVal.beqL xs ys
  | .vDict xs, .vDict ys => PyVal.beqD xs ys
  | _, _ => false

/-- Pointwise equality of lists of `PyVal`. -/
def PyVal.beqL : List PyVal → List PyVal → Bool
  | [], [] => true
  | x :: xs, y :: ys => PyVal.beq x y && PyVal.beqL xs ys
  | _, _ => false

/-- Pointwise equality of association lists of `PyVal` pairs. -/
def PyVal.beqD : List (PyVal × PyVal) → List (PyVal × PyVal) → Bool
  | [], [] => true
  | (k, v) :: xs, (k2, v2) :: ys => PyVal.beq k k2 && PyVal.beq v v2 && PyVal.beqD xs ys
  | _, _ => false
end

mutual
theorem PyVal.beq_iff_eq : ∀ a b : PyVal, (PyVal.beq a b = true) ↔ a = b
  | .vNone, b => by cases b <;> simp [PyVal.beq]
  | .vBool a, b => by cases b <;> simp [PyVal.beq]
  | .vInt a, b => by cases b <;> simp [PyVal.beq]
  | .vStr a, b => by cases b <;> simp [PyVal.beq]
  | .vList xs, b => by
      cases b with
      | vList ys => simp only [PyVal.beq, PyVal.beqL_iff_eq xs ys, PyVal.vList.injEq]
      | vNone => simp [PyVal.beq]
      | vBool c => simp [PyVal.beq]
      | vInt n => simp [PyVal.beq]
      | vStr s => simp [PyVal.beq]
      | vDict d => simp [PyVal.beq]
  | .vDict d, b => by
      cases b with
      | vDict d2 => simp only [PyVal.beq, PyVal.beqD_iff_eq d d2, PyVal.vDict.injEq]
      | vNone => simp [PyVal.beq]
      | vBool c => simp [PyVal.beq]
      | vInt n => simp [PyVal.beq]
      | vStr s => simp [PyVal.beq]
      | vList xs => simp [PyVal.beq]

theorem PyVal.beqL_iff_eq : ∀ xs ys : List PyVal, (PyVal.beqL xs ys = true) ↔ xs = ys
  | [], ys => by cases ys <;> simp [PyVal.beqL]
  | x :: xs, ys => by
      cases ys with
      | nil => simp [PyVal.beqL]
      | cons y ys =>
          simp only [PyVal.beqL, Bool.and_eq_true, PyVal.beq_iff_eq x y,
            PyVal.beqL_iff_eq xs ys, List.cons.injEq]

theorem PyVal.beqD_iff_eq : ∀ xs ys : List (PyVal × PyVal), (PyVal.beqD xs ys = true) ↔ xs = ys
  | [], ys => by cases ys <;> simp [PyVal.beqD]
  | (k, v) :: xs, ys => by
      cases ys with
      | nil => simp [PyVal.beqD]
      | cons p ys =>
          obtain ⟨k2, v2⟩ := p
          simp only [PyVal.beqD, Bool.and_eq_true, PyVal.beq_iff_eq k k2,
            PyVal.beq_iff_eq v v2, PyVal.beqD_iff_eq xs ys, List.cons.injEq, Prod.mk.injEq,
            and_assoc]
end

instance : DecidableEq PyVal := fun a b => decidable_of_iff _ (PyVal.beq_iff_eq a b)

/-- First match of a key in an association-list dict (dict keys are unique
in Python, so first match is the match): Python `d.get(key)` without its
default. -/
def dictLookup : List (PyVal × PyVal) → PyVal → Option PyVal
  | [], _ => none
  | (k, v) :: rest, key => if k = key then some v else dictLookup rest key

/-- Python `d.get(key, dflt)`. -/
def dictGetD (d : List (PyVal × PyVal)) (key dflt : PyVal) : PyVal :=
  (dictLookup d key).getD dflt

/-- Python `key in d` for a dict `d`. -/
def dictHasKey (d : List (PyVal × PyVal)) (key : PyVal) : Bool :=
  (dictLookup d key).isSome

/-- Python `d[key] = v`: replace the value of an existing key in place,
otherwise append the new binding at the end (insertion order). -/
def dictInsert : List (PyVal × PyVal) → PyVal → PyVal → List (PyVal × PyVal)
  | [], k, v => [(k, v)]
  | (k2, v2) :: rest, k, v =>
      if k2 = k then (k2, v) :: rest else (k2, v2) :: dictInsert rest k v

/-- Python hashability of a value: lists and dicts are unhashable and raise
`TypeError` when used as a dict key; `None`, booleans, numbers and strings
are hashable. -/
def PyVal.hashable : PyVal → Bool
  | .vList _ => false
  | .vDict _ => false
  | _ => true

/-- Python subscript `obj[key]` with a string key: succeeds only on a dict
that has the key (`KeyError` when the key is absent, `TypeError` or similar
on non-dicts). -/
def PyVal.getItem : PyVal → PyVal → Except Unit PyVal
  | .vDict d, key =>
      match dictLookup d key with
      | some v => .ok v
      | none => .error ()
  | _, _ => .error ()

/-- Python `obj.items()`: succeeds only on a dict (`AttributeError`
otherwise). -/
def PyVal.items : PyVal → Except Unit (List (PyVal × PyVal))
  | .vDict d => .ok d
  | _ => .error ()

/-- Python iteration `for x in obj`: lists yield their elements, dicts their
keys, strings their one-character substrings; other values raise
`TypeError`. -/
def PyVal.iter : PyVal → Except Unit (List PyVal)
  | .vList xs => .ok xs
  | .vDict d => .ok (d.map (fun p => p.1))
  | .vStr s => .ok (s.toList.map (fun c => .vStr (String.singleton c)))
  | _ => .error ()

/-- Substring test used by Python `needle in hay` on strings. -/
def strContainsSub (hay needle : String) : Bool :=
  needle.isEmpty || (hay.splitOn needle).length ≥ 2

/-- Python membership `x in obj`: key membership for dicts, element
membership for lists, substring for strings (where a non-string left
operand raises `TypeError`), and `TypeError` on other right operands. -/
def PyVal.contains : PyVal → PyVal → Except Unit Bool
  | .vDict d, key => .ok (dictHasKey d key)
  | .vList xs, x => .ok (xs.any (fun y => y = x))
  | .vStr s, .vStr t => .ok (strContainsSub s t)
  | .vStr _, _ => .error ()
  | _, _ => .error ()

/-- A message the page displays through a streamlit status widget. -/
inductive StMsg : Type where
  | error (s : String) : StMsg
  | warning (s : String) : StMsg
  | success (s : String) : StMsg
  | info (s : String) : StMsg
deriving DecidableEq

/-- Discriminator: is the value a Python list. -/
def PyVal.isList : PyVal → Bool
  | .vList _ => true
  | _ => false

/-- Discriminator: is the value a Python dict. -/
def PyVal.isDict : PyVal → Bool
  | .vDict _ => true
  | _ => false

/-- `app.py` lines 62-74, `get_positions`.  The backend call
`trading.get_positions(limit=100)` is the `response` argument (`.error e`
when it raised).  A list response is returned as is; a dict response with
`"status" == "success"` yields its `"data"` field (default `[]`); any
other non-exceptional response yields `[]`; a raised exception is caught,
`st.error` is shown, and `[]` is returned. -/
def get_positions (response : Except String PyVal) : PyVal × List StMsg :=
  match response with
  | .error e => (.vList [], [.error ("Failed to fetch positions: " ++ e)])
  | .ok r =>
      match r with
      | .vList xs => (.vList xs, [])
      | .vDict d =>
          if dictGetD d (.vStr "status") .vNone = .vStr "success" then
            (dictGetD d (.vStr "data") (.vList []), [])
          else (.vList [], [])
      | _ => (.vList [], [])

/-- `app.py` lines 77-89, `get_active_orders`: same normalization as
`get_positions`, over `trading.get_active_orders(limit=100)`. -/
def get_active_orders (response : Except String PyVal) : PyVal × List StMsg :=
  match response with
  | .error e => (.vList [], [.error ("Failed to fetch active orders: " ++ e)])
  | .ok r =>
      match r with
      | .vList xs => (.vList xs, [])
      | .vDict d =>
          if dictGetD d (.vStr "status") .vNone = .vStr "success" then
            (dictGetD d (.vStr "data") (.vList []), [])
          else (.vList [], [])
      | _ => (.vList [], [])

/-- `app.py` lines 92-105, `get_order_history`: same normalization over
`trading.get_orders(limit=50)`, but its `except` clause shows no message
at all ("just return empty list without warning"). -/
def get_order_history (response : Except String PyVal) : PyVal × List StMsg :=
  match response with
  | .error _ => (.vList [], [])
  | .ok r =>
      match r with
      | .vList xs => (.vList xs, [])
      | .vDict d =>
          if dictGetD d (.vStr "status") .vNone = .vStr "success" then
            (dictGetD d (.vStr "data") (.vList []), [])
          else (.vList [], [])
      | _ => (.vList [], [])

/-- `app.py` lines 44-46: the loop collecting
`backend_api_client.accounts.list_credentials(account)` for each account
into the `credentials_list` dict; the first raising call aborts the loop
(the exception propagates to the enclosing handler). -/
def gatherCredentials (creds : String → Except String PyVal) :
    List String → Except String (List (String × PyVal))
  | [] => .ok []
  | a :: rest =>
      match creds a with
      | .error e => .error e
      | .ok c =>
          match gatherCredentials creds rest with
          | .error e => .error e
          | .ok cs => .ok ((a, c) :: cs)

/-- `app.py` lines 39-50, `get_accounts_and_credentials`.
`accountsResponse` is the `accounts.list_accounts()` call, `creds` the
per-account `accounts.list_credentials` call; any raised exception is
caught, `st.error` is shown, and `([], {})` is returned. -/
def get_accounts_and_credentials (accountsResponse : Except String (List String))
    (creds : String → Except String PyVal) :
    (List String × List (String × PyVal)) × List StMsg :=
  match accountsResponse with
  | .error e => (([], []), [.error ("Failed to fetch accounts: " ++ e)])
  | .ok accounts =>
      match gatherCredentials creds accounts with
      | .error e => (([], []), [.error ("Failed to fetch accounts: " ++ e)])
      | .ok cs => ((accounts, cs), [])

/-- `app.py` lines 124-129: normalization of the candles response inside
`get_market_data`'s first inner `try`.  `candles` starts as `[]` and is
only assigned for a list response or a dict response with
`"status" == "success"`. -/
def candlesFromResponse (r : PyVal) : PyVal :=
  match r with
  | .vList xs => .vList xs
  | .vDict d =>
      if dictGetD d (.vStr "status") .vNone = .vStr "success" then
        dictGetD d (.vStr "data") (.vList [])
      else .vList []
  | _ => .vList []

/-- `app.py` lines 112-131: the candles fetch with its own
`try/except`; a raised exception yields `[]` and an `st.warning`. -/
def fetchCandles (resp : Except String PyVal) : PyVal × List StMsg :=
  match resp with
  | .error e => (.vList [], [.warning ("Could not fetch candles: " ++ e)])
  | .ok r => (candlesFromResponse r, [])

/-- `app.py` lines 152-153: the dict comprehension
`{item.get("trading_pair", "unknown"): item.get("price", 0) for item in
price_response if isinstance(item, dict)}`.  Non-dict items are skipped;
each dict item contributes the key `trading_pair` (default `"unknown"`)
and value `price` (default `0`); inserting an unhashable key (a list or
dict value under `"trading_pair"`) raises `TypeError`. -/
def pricesFromList : List PyVal → List (PyVal × PyVal) → Except Unit (List (PyVal × PyVal))
  | [], acc => .ok acc
  | item :: rest, acc =>
      match item with
      | .vDict d =>
          let key := dictGetD d (.vStr "trading_pair") (.vStr "unknown")
          let price := dictGetD d (.vStr "price") (.vInt 0)
          if key.hashable then pricesFromList rest (dictInsert acc key price)
          else .error ()
      | _ => pricesFromList rest acc

/-- `app.py` lines 140-153: normalization of the price response inside
`get_market_data`'s second inner `try`.  A dict with a `"status"` key
equal to `"success"` yields its `"data"` field (default `{}`); otherwise
a dict with a `"prices"` key yields that field (default `{}`); any other
dict is used directly as the prices mapping; a list is converted per
`pricesFromList`; anything else leaves `prices` as `{}`. -/
def pricesFromResponse (r : PyVal) : Except Unit PyVal :=
  match r with
  | .vDict d =>
      if dictHasKey d (.vStr "status") ∧ dictGetD d (.vStr "status") .vNone = .vStr "success" then
        .ok (dictGetD d (.vStr "data") (.vDict []))
      else if dictHasKey d (.vStr "prices") then
        .ok (dictGetD d (.vStr "prices") (.vDict []))
      else
        .ok (.vDict d)
  | .vList xs =>
      match pricesFromList xs [] with
      | .ok acc => .ok (.vDict acc)
      | .error e => .error e
  | _ => .ok (.vDict [])

/-- `app.py` lines 133-155: the prices fetch with its own `try/except`;
a raised exception (from the backend call or from the list conversion)
yields `{}` and an `st.warning`. -/
def fetchPrices (resp : Except String PyVal) : PyVal × List StMsg :=
  match resp with
  | .error e => (.vDict [], [.warning ("Could not fetch prices: " ++ e)])
  | .ok r =>
      match pricesFromResponse r with
      | .ok p => (p, [])
      | .error _ => (.vDict [], [.warning "Could not fetch prices: TypeError"])

/-- `app.py` lines 108-165, `get_market_data`, as a function of its two
backend calls (`market_data.get_candles` and `market_data.get_prices`).
Each fetch sits in its own inner `try/except`, so a raised backend
exception is absorbed by its own block; the outer `except` (lines
163-165) guards only the remaining glue (timing and session-state
writes, not modelled), and no data-path exception reaches it. -/
def get_market_data (candlesResponse pricesResponse : Except String PyVal) :
    (PyVal × PyVal) × List StMsg :=
  let c := fetchCandles candlesResponse
  let p := fetchPrices pricesResponse
  ((c.1, p.1), c.2 ++ p.2)

/-- `app.py` lines 168-180, `place_order`: `True` with an `st.success`
exactly when the response dict's `"status"` is `"success"`; `False` with
an `st.error` for any other dict; a non-dict response makes
`response.get` raise `AttributeError`, caught by the same handler as a
raised backend call, so `False` with an `st.error` there too. -/
def place_order (response : Except String PyVal) : Bool × List StMsg :=
  match response with
  | .error e => (false, [.error ("Failed to place order: " ++ e)])
  | .ok r =>
      match r with
      | .vDict d =>
          if dictGetD d (.vStr "status") .vNone = .vStr "success" then
            (true, [.success "Order placed successfully!"])
          else
            (false, [.error "Failed to place order"])
      | _ => (false, [.error "Failed to place order: AttributeError"])

/-- `app.py` lines 183-199, `cancel_order`: the same success test and
error handling as `place_order`, over `trading.cancel_order`. -/
def cancel_order (response : Except String PyVal) : Bool × List StMsg :=
  match response with
  | .error e => (false, [.error ("Failed to cancel order: " ++ e)])
  | .ok r =>
      match r with
      | .vDict d =>
          if dictGetD d (.vStr "status") .vNone = .vStr "success" then
            (true, [.success "Order cancelled successfully!"])
          else
            (false, [.error "Failed to cancel order"])
      | _ => (false, [.error "Failed to cancel order: AttributeError"])

/-- `app.py` lines 606-613: the dict literal appended to `balances` for
one `token_info`, whose five subscripts (`token`, `units`,
`available_units`, `price`, `value`) each raise `KeyError` on a
non-conforming record; model keys are renamed exactly as the source does
(`total` ← `units`, `available` ← `available_units`). -/
def balanceEntry (exchange tokenInfo : PyVal) : Except Unit PyVal :=
  match tokenInfo.getItem (.vStr "token") with
  | .error e => .error e
  | .ok tok =>
      match tokenInfo.getItem (.vStr "units") with
      | .error e => .error e
      | .ok units =>
          match tokenInfo.getItem (.vStr "available_units") with
          | .error e => .error e
          | .ok avail =>
              match tokenInfo.getItem (.vStr "price") with
              | .error e => .error e
              | .ok price =>
                  match tokenInfo.getItem (.vStr "value") with
                  | .error e => .error e
                  | .ok value =>
                      .ok (.vDict [(.vStr "exchange", exchange), (.vStr "token", tok),
                        (.vStr "total", units), (.vStr "available", avail),
                        (.vStr "price", price), (.vStr "value", value)])

/-- `app.py` lines 605-613: the inner `for token_info in tokens` loop. -/
def balancesOfTokens (exchange : PyVal) : List PyVal → Except Unit (List PyVal)
  | [] => .ok []
  | ti :: rest =>
      match balanceEntry exchange ti with
      | .error e => .error e
      | .ok b =>
          match balancesOfTokens exchange rest with
          | .error e => .error e
          | .ok bs => .ok (b :: bs)

/-- `app.py` lines 604-613: the outer
`for exchange, tokens in portfolio_state[account].items()` loop;
`tokens` is iterated with Python semantics (`PyVal.iter`). -/
def balancesOfExchanges : List (PyVal × PyVal) → Except Unit (List PyVal)
  | [] => .ok []
  | (exchange, tokens) :: rest =>
      match tokens.iter with
      | .error e => .error e
      | .ok tis =>
          match balancesOfTokens exchange tis with
          | .error e => .error e
          | .ok bs =>
              match balancesOfExchanges rest with
              | .error e => .error e
              | .ok more => .ok (bs ++ more)

/-- `app.py` lines 602-614: the balance extraction over the
`portfolio.get_state` response, including the
`if st.session_state.selected_account in portfolio_state` membership
test and the `portfolio_state[account]` subscript. -/
def extractBalances (portfolioState : PyVal) (account : String) : Except Unit (List PyVal) :=
  match portfolioState.contains (.vStr account) with
  | .error e => .error e
  | .ok isMember =>
      if isMember then
        match portfolioState.getItem (.vStr account) with
        | .error e => .error e
        | .ok accountData =>
            match accountData.items with
            | .error e => .error e
            | .ok exchanges => balancesOfExchanges exchanges
      else
        .ok []

/-- `app.py` lines 590-617, `get_balances`.  `selectedAccount` is
`st.session_state.selected_account` (`none` for `None`; the source's
`if not ...` truthiness test also treats the empty string as unset);
`stateResponse` is the `portfolio.get_state` call.  Every exception — a
raised backend call or any `KeyError`/`TypeError`/`AttributeError`
during extraction — is caught by the one handler, which shows `st.error`
and returns `[]`. -/
def get_balances (selectedAccount : Option String) (stateResponse : Except String PyVal) :
    PyVal × List StMsg :=
  match selectedAccount with
  | none => (.vList [], [])
  | some a =>
      if a = "" then (.vList [], [])
      else
        match stateResponse with
        | .error e => (.vList [], [.error ("Failed to fetch balances: " ++ e)])
        | .ok ps =>
            match extractBalances ps a with
            | .ok bs => (.vList bs, [])
            | .error _ => (.vList [], [.error "Failed to fetch balances: extraction error"])

/-- The payload `place_order(**order_data)` receives from the Place
Order button handler (`app.py` lines 710-719): the keyword arguments of
the backend call, with `price` present only when the handler added it. -/
structure OrderData : Type where
  account_name : String
  connector_name : String
  trading_pair : String
  order_type : String
  trade_type : String
  amount : ℚ
  price : Option ℚ
deriving DecidableEq

/-- Python float truthiness of the `price` local of the handler
(`None` and `0.0` are falsy). -/
def pyNumberTruthy : Option ℚ → Bool
  | none => false
  | some p => decide (p ≠ 0)

/-- `app.py` lines 694-723: the Place Order button handler.  `priceWidget`
is the number entered in the Price widget; the `price` local is that
number when the order type is `"limit"` and `None` otherwise (lines
695-704).  When `amount > 0` the handler builds `order_data` from the
session state unmodified, adds `price` only under
`order_type == "limit" and price`, and calls `place_order`; otherwise it
shows `st.error` and issues no backend call (`none`). -/
def placeOrderClick (selectedAccount selectedConnector tradingPair orderType side : String)
    (amount priceWidget : ℚ) : Option OrderData :=
  let price : Option ℚ := if orderType = "limit" then some priceWidget else none
  if amount > 0 then
    let base : OrderData :=
      { account_name := selectedAccount, connector_name := selectedConnector,
        trading_pair := tradingPair, order_type := orderType,
        trade_type := side, amount := amount, price := none }
    some (if orderType = "limit" ∧ pyNumberTruthy price then
      { base with price := price } else base)
  else
    none

/-- The normalization rule exactly as claim C1 states it: a list response
is returned itself; a dict response whose `"status"` equals `"success"`
yields its `"data"` field, defaulting to the empty list; every other
response yields the empty list. -/
def claimNormalize (r : PyVal) : PyVal :=
  match r with
  | .vList _ => r
  | .vDict d =>
      if dictGetD d (.vStr "status") .vNone = .vStr "success" then
        dictGetD d (.vStr "data") (.vList [])
      else .vList []
  | _ => .vList []

/-- The success criterion of claim C4: the backend call returned (did not
raise) a dict whose `"status"` field equals `"success"`. -/
def responseStatusSuccess : Except String PyVal → Bool
  | .ok (.vDict d) => decide (dictGetD d (.vStr "status") .vNone = .vStr "success")
  | .ok _ => false
  | .error _ => false

/-- C1: for every backend response `r`, `get_positions`,
`get_active_orders` and `get_order_history` normalize `r` the same way:
a list is returned itself; a dict with `"status" == "success"` yields
its `"data"` field (default `[]`); every other non-exceptional response
yields `[]`. -/
theorem C1_response_normalization (r : PyVal) :
    (get_positions (.ok r)).1 = claimNormalize r ∧
    (get_active_orders (.ok r)).1 = claimNormalize r ∧
    (get_order_history (.ok r)).1 = claimNormalize r := by
  refine ⟨?_, ?_, ?_⟩ <;> cases r <;>
    simp only [get_positions, get_active_orders, get_order_history, claimNormalize] <;>
    first
      | rfl
      | (split <;> rfl)

/-- C4: `place_order` and `cancel_order` return `True` exactly when the
backend call returned a dict whose `"status"` equals `"success"`, and
`False` (without propagating anything) on a raised exception, any other
status, or a malformed response. -/
theorem C4_order_actions_success_iff (p c : Except String PyVal) :
    (place_order p).1 = responseStatusSuccess p ∧
    (cancel_order c).1 = responseStatusSuccess c := by
  constructor
  · cases p with
    | error e => rfl
    | ok r =>
        cases r <;>
          first
            | rfl
            | (simp only [place_order, responseStatusSuccess]; split <;> simp_all)
  · cases c with
    | error e => rfl
    | ok r =>
        cases r <;>
          first
            | rfl
            | (simp only [cancel_order, responseStatusSuccess]; split <;> simp_all)

/-- C2 counterexample: a plain dict response with neither a `"status"`
nor a `"prices"` key — none of the claim's three shapes — still
contributes price data: `get_market_data` uses the dict itself as the
prices mapping (`app.py` lines 147-149), so the returned prices dict is
nonempty. -/
theorem C2_plain_dict_contributes_prices :
    pricesFromResponse (.vDict [(.vStr "ETH-USDT", .vInt 3000)]) =
      .ok (.vDict [(.vStr "ETH-USDT", .vInt 3000)]) ∧
    (fetchPrices (.ok (.vDict [(.vStr "ETH-USDT", .vInt 3000)]))).1 =
      .vDict [(.vStr "ETH-USDT", .vInt 3000)] ∧
    PyVal.isList (.vDict [(.vStr "ETH-USDT", .vInt 3000)]) = false ∧
    dictHasKey [(.vStr "ETH-USDT", .vInt 3000)] (.vStr "status") = false ∧
    dictHasKey [(.vStr "ETH-USDT", .vInt 3000)] (.vStr "prices") = false ∧
    (.vDict [(.vStr "ETH-USDT", .vInt 3000)] : PyVal) ≠ .vDict [] := by
  refine ⟨rfl, rfl, rfl, rfl, rfl, ?_⟩
  decide

/-- C2 amended: the price response is classified into four shapes, not
three — a raw list (converted pairwise), a `{status, data}` envelope
with `"status" == "success"` (prices from `"data"`), a dict with a
`"prices"` key (prices from that field), or any other dict, which is
used directly as the prices mapping; only non-dict non-list responses
contribute no price data. -/
theorem C2_price_classification_amended (d : List (PyVal × PyVal)) (xs : List PyVal)
    (b : Bool) (n : Int) (s : String) :
    (dictHasKey d (.vStr "status") = true →
      dictGetD d (.vStr "status") .vNone = .vStr "success" →
      pricesFromResponse (.vDict d) = .ok (dictGetD d (.vStr "data") (.vDict []))) ∧
    (¬ (dictHasKey d (.vStr "status") = true ∧
        dictGetD d (.vStr "status") .vNone = .vStr "success") →
      dictHasKey d (.vStr "prices") = true →
      pricesFromResponse (.vDict d) = .ok (dictGetD d (.vStr "prices") (.vDict []))) ∧
    (¬ (dictHasKey d (.vStr "status") = true ∧
        dictGetD d (.vStr "status") .vNone = .vStr "success") →
      dictHasKey d (.vStr "prices") = false →
      pricesFromResponse (.vDict d) = .ok (.vDict d)) ∧
    pricesFromResponse (.vList xs) = Except.map PyVal.vDict (pricesFromList xs []) ∧
    pricesFromResponse .vNone = .ok (.vDict []) ∧
    pricesFromResponse (.vBool b) = .ok (.vDict []) ∧
    pricesFromResponse (.vInt n) = .ok (.vDict []) ∧
    pricesFromResponse (.vStr s) = .ok (.vDict []) := by
  refine ⟨?_, ?_, ?_, ?_, rfl, rfl, rfl, rfl⟩
  · intro h1 h2
    simp [pricesFromResponse, h1, h2]
  · intro h1 h2
    simp only [pricesFromResponse]
    rw [if_neg (by simpa using h1), if_pos (by simpa using h2)]
  · intro h1 h2
    simp only [pricesFromResponse]
    rw [if_neg (by simpa using h1), if_neg (by simp [h2])]
  · cases h : pricesFromList xs [] <;> simp [pricesFromResponse, h, Except.map]

/-- C3 counterexample: when the candles backend call raises but the
prices call succeeds with data, `get_market_data` does not return its
`([], {})` fallback — the prices component keeps the fetched data, so a
failing backend call does not imply the empty pair. -/
theorem C3_partial_failure_not_empty_pair :
    (get_market_data (.error "Connection refused")
        (.ok (.vDict [(.vStr "BTC-USDT", .vInt 50000)]))).1 =
      (.vList [], .vDict [(.vStr "BTC-USDT", .vInt 50000)]) ∧
    (.vDict [(.vStr "BTC-USDT", .vInt 50000)] : PyVal) ≠ .vDict [] := by
  refine ⟨rfl, ?_⟩
  decide

/-- C3 amended: no backend exception propagates out of a data-fetching
operation.  `get_accounts_and_credentials` returns `([], {})` whenever
`list_accounts` or any `list_credentials` call raises and `get_balances`
returns `[]` whenever `get_state` raises; `get_market_data` substitutes
the fallback only for the component whose own fetch raised (`[]` for
candles, `{}` for prices), so it returns `([], {})` when both fetches
raise, while a single failure leaves the other component's data
intact. -/
theorem C3_exception_fallbacks (e e2 : String) (creds : String → Except String PyVal)
    (accounts : List String) (cr pr : Except String PyVal) (a : String) :
    get_accounts_and_credentials (.error e) creds =
      (([], []), [.error ("Failed to fetch accounts: " ++ e)]) ∧
    (gatherCredentials creds accounts = .error e2 →
      get_accounts_and_credentials (.ok accounts) creds =
        (([], []), [.error ("Failed to fetch accounts: " ++ e2)])) ∧
    (get_balances (some a) (.error e)).1 = .vList [] ∧
    (get_balances none (.error e)).1 = .vList [] ∧
    (get_market_data (.error e) (.error e2)).1 = (.vList [], .vDict []) ∧
    (get_market_data (.error e) pr).1.1 = .vList [] ∧
    (get_market_data cr (.error e)).1.2 = .vDict [] := by
  refine ⟨rfl, ?_, ?_, rfl, rfl, rfl, rfl⟩
  · intro h
    simp [get_accounts_and_credentials, h]
  · simp only [get_balances]
    split <;> rfl

/-- C8: `get_order_history` suppresses a raised backend exception
silently — it returns the empty list and displays nothing — whereas the
parallel fetches all display an error or warning when their call
raises. -/
theorem C8_order_history_swallows_silently (e : String) :
    get_order_history (.error e) = (.vList [], []) ∧
    (get_positions (.error e)).2 ≠ [] ∧
    (get_active_orders (.error e)).2 ≠ [] ∧
    (get_accounts_and_credentials (.error e) (fun _ => .ok .vNone)).2 ≠ [] ∧
    (get_balances (some "master") (.error e)).2 ≠ [] ∧
    (get_market_data (.error e) (.error e)).2 ≠ [] := by
  refine ⟨rfl, ?_, ?_, ?_, ?_, ?_⟩ <;> simp [get_positions, get_active_orders,
    get_accounts_and_credentials, get_balances, get_market_data, fetchCandles, fetchPrices]

/-- C9 counterexample: a success envelope whose `"data"` field is not a
list makes `get_market_data` return that raw value as its first
component, so the first component is not always a list of candles (and
symmetrically the second component is not always a dict). -/
theorem C9_nonlist_candles_component :
    (get_market_data
        (.ok (.vDict [(.vStr "status", .vStr "success"), (.vStr "data", .vInt 42)]))
        (.ok (.vDict [(.vStr "status", .vStr "success"), (.vStr "data", .vInt 7)]))).1 =
      (.vInt 42, .vInt 7) ∧
    PyVal.isList (.vInt 42) = false ∧
    PyVal.isDict (.vInt 7) = false := by
  exact ⟨rfl, rfl, rfl⟩

/-- C9 amended: the two fetches of `get_market_data` fail independently —
the candles component depends only on the candles response and the
prices component only on the prices response, and a raised fetch yields
`[]` (candles) or `{}` (prices) for its component alone; the components
are, however, whatever the normalization yields, which for a success
envelope is its raw `"data"` field and need not be a list or a dict. -/
theorem C9_market_data_independence (cr cr2 pr pr2 : Except String PyVal) (e : String) :
    (get_market_data cr pr).1.1 = (get_market_data cr pr2).1.1 ∧
    (get_market_data cr pr).1.2 = (get_market_data cr2 pr).1.2 ∧
    (get_market_data (.error e) pr).1.1 = .vList [] ∧
    (get_market_data cr (.error e)).1.2 = .vDict [] := by
  exact ⟨rfl, rfl, rfl, rfl⟩

/-- The list-to-prices conversion as claim C10 states it: non-dict items
are skipped, each dict item yields key `trading_pair` (default
`"unknown"`) and value `price` (default `0`), with Python dict insertion
(later duplicates overwrite in place) and no failure case. -/
def claimListPrices : List PyVal → List (PyVal × PyVal) → List (PyVal × PyVal)
  | [], acc => acc
  | item :: rest, acc =>
      match item with
      | .vDict d =>
          claimListPrices rest
            (dictInsert acc (dictGetD d (.vStr "trading_pair") (.vStr "unknown"))
              (dictGetD d (.vStr "price") (.vInt 0)))
      | _ => claimListPrices rest acc

/-- An item of the price list whose contribution to the dict
comprehension cannot raise: either it is skipped (non-dict) or the key
it contributes is hashable. -/
def itemKeyHashable (item : PyVal) : Bool :=
  match item with
  | .vDict d => (dictGetD d (.vStr "trading_pair") (.vStr "unknown")).hashable
  | _ => true

theorem pricesFromList_eq_claim (xs : List PyVal) :
    ∀ acc, xs.all itemKeyHashable = true →
      pricesFromList xs acc = .ok (claimListPrices xs acc) := by
  induction xs with
  | nil => intro acc _; rfl
  | cons item rest ih =>
      intro acc h
      simp only [List.all_cons, Bool.and_eq_true] at h
      cases item with
      | vDict d =>
          have hk : (dictGetD d (.vStr "trading_pair") (.vStr "unknown")).hashable = true := by
            simpa [itemKeyHashable] using h.1
          simp only [pricesFromList, claimListPrices, hk, if_pos]
          exact ih _ h.2
      | vNone => exact ih _ h.2
      | vBool b => exact ih _ h.2
      | vInt n => exact ih _ h.2
      | vStr s => exact ih _ h.2
      | vList l => exact ih _ h.2

/-- C10 counterexample: a dict item whose `"trading_pair"` value is a
list (an unhashable key) makes the comprehension raise `TypeError`, so
the conversion is not total over arbitrary list contents; the enclosing
handler turns the exception into an empty prices dict plus a warning. -/
theorem C10_unhashable_key_raises :
    pricesFromList [.vDict [(.vStr "trading_pair", .vList [])]] [] = .error () ∧
    (fetchPrices (.ok (.vList [.vDict [(.vStr "trading_pair", .vList [])]]))).1 = .vDict [] ∧
    (fetchPrices (.ok (.vList [.vDict [(.vStr "trading_pair", .vList [])]]))).2 =
      [.warning "Could not fetch prices: TypeError"] := by
  exact ⟨rfl, rfl, rfl⟩

/-- C10 amended: the conversion of a list price response is total
provided every dict item's `"trading_pair"` value is hashable (not a
list or dict): non-dict elements are skipped and missing
`"trading_pair"`/`"price"` keys default to `"unknown"`/`0`; a dict item
carrying an unhashable `"trading_pair"` value instead raises
`TypeError`, which the enclosing handler converts to `{}`. -/
theorem C10_list_conversion_total (xs : List PyVal)
    (h : xs.all itemKeyHashable = true) :
    pricesFromList xs [] = .ok (claimListPrices xs []) :=
  pricesFromList_eq_claim xs [] h

/-- C10 witness: a concrete list exercising every rule — a full record, a
skipped non-dict element, a missing `"trading_pair"` (key `"unknown"`),
and a missing `"price"` whose duplicate key overwrites in place. -/
theorem C10_list_conversion_witness :
    pricesFromList
      [.vDict [(.vStr "trading_pair", .vStr "BTC-USDT"), (.vStr "price", .vInt 50000)],
       .vInt 7,
       .vDict [(.vStr "price", .vInt 5)],
       .vDict [(.vStr "trading_pair", .vStr "BTC-USDT")]] [] =
      .ok [(.vStr "BTC-USDT", .vInt 0), (.vStr "unknown", .vInt 5)] := by
  rw [C10_list_conversion_total _ (by decide)]
  rfl

/-- C7: the Place Order button issues a backend request exactly when the
entered amount is positive — the only locally checked precondition — and
forwards account, connector, trading pair, order type, trade type and
amount unmodified, adding the limit price only for a `"limit"` order
with a truthy (nonzero) price. -/
theorem C7_place_order_local_precondition (acct conn pair otype side : String)
    (amount pw : ℚ) :
    (amount ≤ 0 → placeOrderClick acct conn pair otype side amount pw = none) ∧
    (0 < amount →
      placeOrderClick acct conn pair otype side amount pw =
        some { account_name := acct, connector_name := conn, trading_pair := pair,
               order_type := otype, trade_type := side, amount := amount,
               price := if otype = "limit" ∧ pw ≠ 0 then some pw else none }) := by
  constructor
  · intro h
    simp [placeOrderClick, not_lt.mpr h]
  · intro h
    simp only [placeOrderClick, if_pos h]
    by_cases hl : otype = "limit"
    · by_cases hp : pw = 0 <;> simp [hl, hp, pyNumberTruthy]
    · simp [hl, pyNumberTruthy]

/-- C7 witness: a positive-amount limit order is forwarded verbatim with
its price, and a zero amount issues no request. -/
theorem C7_place_order_witness :
    placeOrderClick "master" "binance" "BTC-USDT" "limit" "buy" 1 65000 =
      some { account_name := "master", connector_name := "binance",
             trading_pair := "BTC-USDT", order_type := "limit", trade_type := "buy",
             amount := 1, price := some 65000 } ∧
    placeOrderClick "master" "binance" "BTC-USDT" "market" "sell" 0 0 = none := by
  constructor
  · rw [(C7_place_order_local_precondition "master" "binance" "BTC-USDT" "limit" "buy"
      1 65000).2 (by norm_num)]
    norm_num
  · exact (C7_place_order_local_precondition "master" "binance" "BTC-USDT" "market" "sell"
      0 0).1 le_rfl

/-- Lookup with `None` default on a dict value (used only to phrase claim
C5's record fields; on well-formed records the key is always present). -/
def pyGetD (v : PyVal) (key : PyVal) : PyVal :=
  match v with
  | .vDict d => dictGetD d key .vNone
  | _ => .vNone

/-- A backend per-token record of the portfolio state as claim C5
expects it: a dict carrying the five fields `get_balances` copies. -/
def tokenInfoWellFormed (v : PyVal) : Bool :=
  match v with
  | .vDict d =>
      dictHasKey d (.vStr "token") && dictHasKey d (.vStr "units") &&
      dictHasKey d (.vStr "available_units") && dictHasKey d (.vStr "price") &&
      dictHasKey d (.vStr "value")
  | _ => false

/-- The selected account's slice of a portfolio-state response as claim
C5 expects it: a dict mapping each exchange to a list of well-formed
token records. -/
def accountDataWellFormed (v : PyVal) : Bool :=
  match v with
  | .vDict es =>
      es.all (fun p =>
        match p.2 with
        | .vList ts => ts.all tokenInfoWellFormed
        | _ => false)
  | _ => false

/-- The balance record claim C5 specifies for one (exchange, token)
entry: fields `exchange`, `token`, `total = units`,
`available = available_units`, `price` and `value` copied from the
backend record. -/
def claimBalanceRecord (exchange tokenInfo : PyVal) : PyVal :=
  .vDict [(.vStr "exchange", exchange),
          (.vStr "token", pyGetD tokenInfo (.vStr "token")),
          (.vStr "total", pyGetD tokenInfo (.vStr "units")),
          (.vStr "available", pyGetD tokenInfo (.vStr "available_units")),
          (.vStr "price", pyGetD tokenInfo (.vStr "price")),
          (.vStr "value", pyGetD tokenInfo (.vStr "value"))]

/-- The full balance list claim C5 specifies: one record per
(exchange, token) entry under the selected account, in iteration
order. -/
def claimBalances (accountData : PyVal) : List PyVal :=
  match accountData with
  | .vDict es =>
      (es.map (fun p =>
        match p.2 with
        | .vList ts => ts.map (claimBalanceRecord p.1)
        | _ => [])).flatten
  | _ => []

theorem getItem_of_hasKey (d : List (PyVal × PyVal)) (k : PyVal)
    (h : dictHasKey d k = true) :
    PyVal.getItem (.vDict d) k = .ok (dictGetD d k .vNone) := by
  simp only [PyVal.getItem, dictGetD]
  cases hl : dictLookup d k with
  | none => simp [dictHasKey, hl] at h
  | some v => simp

theorem balanceEntry_of_wellFormed (exchange ti : PyVal)
    (h : tokenInfoWellFormed ti = true) :
    balanceEntry exchange ti = .ok (claimBalanceRecord exchange ti) := by
  cases ti with
  | vDict d =>
      simp only [tokenInfoWellFormed, Bool.and_eq_true] at h
      obtain ⟨⟨⟨⟨h1, h2⟩, h3⟩, h4⟩, h5⟩ := h
      simp only [balanceEntry, getItem_of_hasKey _ _ h1, getItem_of_hasKey _ _ h2,
        getItem_of_hasKey _ _ h3, getItem_of_hasKey _ _ h4, getItem_of_hasKey _ _ h5,
        claimBalanceRecord, pyGetD]
  | vNone => simp [tokenInfoWellFormed] at h
  | vBool b => simp [tokenInfoWellFormed] at h
  | vInt n => simp [tokenInfoWellFormed] at h
  | vStr s => simp [tokenInfoWellFormed] at h
  | vList l => simp [tokenInfoWellFormed] at h

theorem balancesOfTokens_of_wellFormed (exchange : PyVal) (ts : List PyVal)
    (h : ts.all tokenInfoWellFormed = true) :
    balancesOfTokens exchange ts = .ok (ts.map (claimBalanceRecord exchange)) := by
  induction ts with
  | nil => rfl
  | cons t rest ih =>
      simp only [List.all_cons, Bool.and_eq_true] at h
      simp only [balancesOfTokens, balanceEntry_of_wellFormed _ _ h.1, ih h.2, List.map_cons]

theorem balancesOfExchanges_of_wellFormed (es : List (PyVal × PyVal))
    (h : accountDataWellFormed (.vDict es) = true) :
    balancesOfExchanges es = .ok (claimBalances (.vDict es)) := by
  induction es with
  | nil => rfl
  | cons p rest ih =>
      obtain ⟨exchange, tokens⟩ := p
      simp only [accountDataWellFormed, List.all_cons, Bool.and_eq_true] at h
      cases tokens with
      | vList ts =>
          simp only [balancesOfExchanges, PyVal.iter,
            balancesOfTokens_of_wellFormed _ _ h.1]
          rw [ih (by simpa [accountDataWellFormed] using h.2)]
          simp [claimBalances]
      | vNone => simp at h
      | vBool b => simp at h
      | vInt n => simp at h
      | vStr s => simp at h
      | vDict d2 => simp at h

theorem extractBalances_of_wellFormed (d : List (PyVal × PyVal)) (a : String) (ad : PyVal)
    (hl : dictLookup d (.vStr a) = some ad) (h : accountDataWellFormed ad = true) :
    extractBalances (.vDict d) a = .ok (claimBalances ad) := by
  cases ad with
  | vDict es =>
      have hk : dictHasKey d (.vStr a) = true := by simp [dictHasKey, hl]
      simp only [extractBalances, PyVal.contains, hk, if_pos, getItem_of_hasKey _ _ hk,
        dictGetD, hl, Option.getD_some, PyVal.items]
      exact balancesOfExchanges_of_wellFormed es h
  | vNone => simp [accountDataWellFormed] at h
  | vBool b => simp [accountDataWellFormed] at h
  | vInt n => simp [accountDataWellFormed] at h
  | vStr s => simp [accountDataWellFormed] at h
  | vList l => simp [accountDataWellFormed] at h

/-- C5: for a portfolio-state response, `get_balances` returns one
balance record per (exchange, token) entry under the selected account,
with `exchange`, `token`, `total = units`, `available =
available_units`, `price` and `value` copied from the backend record;
it returns the empty list when no account is selected (including the
falsy empty string) or when the selected account is not a key of the
response dict. -/
theorem C5_get_balances_extraction (a : String) (d : List (PyVal × PyVal)) (ad : PyVal)
    (resp : Except String PyVal) :
    (get_balances none resp).1 = .vList [] ∧
    (get_balances (some "") resp).1 = .vList [] ∧
    (a ≠ "" → dictHasKey d (.vStr a) = false →
      (get_balances (some a) (.ok (.vDict d))).1 = .vList []) ∧
    (a ≠ "" → dictLookup d (.vStr a) = some ad → accountDataWellFormed ad = true →
      (get_balances (some a) (.ok (.vDict d))).1 = .vList (claimBalances ad)) := by
  refine ⟨rfl, rfl, ?_, ?_⟩
  · intro ha hk
    simp only [get_balances, if_neg ha]
    have : extractBalances (.vDict d) a = .ok [] := by
      simp [extractBalances, PyVal.contains, hk]
    rw [this]
  · intro ha hl h
    simp only [get_balances, if_neg ha]
    rw [extractBalances_of_wellFormed d a ad hl h]

/-- C5 witness: a concrete portfolio state with one exchange and two
token records is flattened into the two specified balance records. -/
theorem C5_get_balances_witness :
    (get_balances (some "master")
        (.ok (.vDict [(.vStr "master", .vDict [(.vStr "binance", .vList
          [.vDict [(.vStr "token", .vStr "BTC"), (.vStr "units", .vInt 2),
                   (.vStr "available_units", .vInt 1), (.vStr "price", .vInt 50000),
                   (.vStr "value", .vInt 100000)],
           .vDict [(.vStr "token", .vStr "USDT"), (.vStr "units", .vInt 300),
                   (.vStr "available_units", .vInt 300), (.vStr "price", .vInt 1),
                   (.vStr "value", .vInt 300)]])])]))).1 =
      .vList
        [.vDict [(.vStr "exchange", .vStr "binance"), (.vStr "token", .vStr "BTC"),
                 (.vStr "total", .vInt 2), (.vStr "available", .vInt 1),
                 (.vStr "price", .vInt 50000), (.vStr "value", .vInt 100000)],
         .vDict [(.vStr "exchange", .vStr "binance"), (.vStr "token", .vStr "USDT"),
                 (.vStr "total", .vInt 300), (.vStr "available", .vInt 300),
                 (.vStr "price", .vInt 1), (.vStr "value", .vInt 300)]] := by
  rw [(C5_get_balances_extraction "master"
      [(.vStr "master", .vDict [(.vStr "binance", .vList
        [.vDict [(.vStr "token", .vStr "BTC"), (.vStr "units", .vInt 2),
                 (.vStr "available_units", .vInt 1), (.vStr "price", .vInt 50000),
                 (.vStr "value", .vInt 100000)],
         .vDict [(.vStr "token", .vStr "USDT"), (.vStr "units", .vInt 300),
                 (.vStr "available_units", .vInt 300), (.vStr "price", .vInt 1),
                 (.vStr "value", .vInt 300)]])])]
      (.vDict [(.vStr "binance", .vList
        [.vDict [(.vStr "token", .vStr "BTC"), (.vStr "units", .vInt 2),
                 (.vStr "available_units", .vInt 1), (.vStr "price", .vInt 50000),
                 (.vStr "value", .vInt 100000)],
         .vDict [(.vStr "token", .vStr "USDT"), (.vStr "units", .vInt 300),
                 (.vStr "available_units", .vInt 300), (.vStr "price", .vInt 1),
                 (.vStr "value", .vInt 300)]])])
      (.ok .vNone)).2.2.2 (by decide) (by decide) (by decide)]
  rfl
